import Mathlib

/-!
Shallow embedding of `bigchaindb/commands/utils.py`: the command-line
dispatch and bootstrap pipeline of BigchainDB.  Python dynamic values are
modelled by `PyVal`, the mutable process-wide state (`bigchaindb.config`,
the installed logging configuration) by an explicit `PState` record that is
threaded through handlers, and observable effects (installing the
configuration, installing the logging configuration, printing help) by an
event trace inside `PState`.
-/

namespace BigchainDB

/-- Charwise embedding of Python `str.lower()` (ASCII, as used here). -/
def strLower (s : String) : String := String.mk (s.data.map Char.toLower)

/-- Charwise embedding of Python `str.upper()` (ASCII, as used here). -/
def strUpper (s : String) : String := String.mk (s.data.map Char.toUpper)

/-- Embedding of Python `command.replace('-', '_')`: a single-character
pattern replace is a charwise map. -/
def replaceDashes (s : String) : String :=
  String.mk (s.data.map (fun c => if c = '-' then '_' else c))

/-- Python runtime values reaching `_convert`: `None`, `str`, `bool`, `int`. -/
inductive PyVal where
  | none
  | str (s : String)
  | bool (b : Bool)
  | int (n : Int)
deriving DecidableEq, Repr

/-- Python exceptions raised by the conversion utility. -/
inductive PyError where
  | valueError (msg : String)
deriving DecidableEq, Repr

/-- The `convert` argument of `_convert`: a builtin type (`str`, `bool`,
`int`, as produced by `type(default)`) or an arbitrary callable. -/
inductive Converter where
  | strType
  | boolType
  | intType
  | custom (f : String → Except PyError PyVal)

/-- The local `convert_bool` of `_convert` (utils.py lines 97-102). -/
def convert_bool (value : String) : Except PyError PyVal :=
  if strLower value ∈ ["true", "t", "yes", "y"] then
    Except.ok (PyVal.bool true)
  else if strLower value ∈ ["false", "f", "no", "n"] then
    Except.ok (PyVal.bool false)
  else
    Except.error (PyError.valueError (value ++ " cannot be converted to bool"))

/-- Builtin `str` applied to a string: identity. -/
def pyStr (value : String) : Except PyError PyVal :=
  Except.ok (PyVal.str value)

/-- Builtin `bool` applied to a string: truthiness (nonempty). Unreachable
in `_convert`, which replaces the `bool` converter by `convert_bool`. -/
def pyBool (value : String) : Except PyError PyVal :=
  Except.ok (PyVal.bool (!(value == "")))

/-- Builtin `int` applied to a string: base-10 parse, `ValueError` on
failure. -/
def pyInt (value : String) : Except PyError PyVal :=
  match value.trim.toInt? with
  | some n => Except.ok (PyVal.int n)
  | Option.none =>
      Except.error (PyError.valueError
        ("invalid literal for int() with base 10: " ++ value))

/-- Application of a chosen converter to a (nonempty) string value. -/
def applyConverter : Converter → String → Except PyError PyVal
  | Converter.strType, v => pyStr v
  | Converter.boolType, v => pyBool v
  | Converter.intType, v => pyInt v
  | Converter.custom f, v => f v

/-- Embedding of `type(default)` for the values a default can take here. -/
def typeConverter : PyVal → Converter
  | PyVal.none => Converter.strType
  | PyVal.str _ => Converter.strType
  | PyVal.bool _ => Converter.boolType
  | PyVal.int _ => Converter.intType

/-- Embedding of `_convert(value, default=None, convert=None)`
(utils.py lines 96-119).  `value` is `Option String` so that both Python
`None` and a string can be passed; `PyVal.none` is the Python `None`
default. -/
def _convert (value : Option String) (default : PyVal)
    (convert : Option Converter) : Except PyError PyVal :=
  let value := if value = some "" then Option.none else value
  let convert :=
    match convert with
    | some c => c
    | Option.none =>
        if default = PyVal.none then Converter.strType else typeConverter default
  let convert :=
    match convert with
    | Converter.boolType => Converter.custom convert_bool
    | c => c
  match value with
  | Option.none => Except.ok default
  | some v => applyConverter convert v

/-- The `multiprocess` attribute values argparse can put on `args`:
`False` (flag not given), `None` (flag given with no value, "auto"), or an
explicit integer. -/
inductive MPVal where
  | pyFalse
  | pyNone
  | pyInt (n : Int)
deriving DecidableEq, Repr

/-- The parsed-argument namespace.  `log_level` is doubly optional: the
outer `Option.none` models the attribute being missing entirely (the
`AttributeError` case), `some Option.none` the attribute being `None`.
`multiprocess` is `Option.none` when the attribute is missing (the
`getattr` default case). -/
structure Args where
  command : Option String
  config : Option String
  log_level : Option (Option String)
  yes : Bool
  multiprocess : Option MPVal
deriving DecidableEq, Repr

/-- The `log` section of the installed process configuration, holding the
fields read by `start_logging_process`. -/
structure LogSection where
  file : String
  error_file : String
  level_console : String
  level_logfile : String
  datefmt_console : String
  datefmt_logfile : String
  fmt_console : String
  fmt_logfile : String
deriving DecidableEq, Repr

/-- The process-wide `bigchaindb.config` mapping, restricted to the part
this pipeline reads. -/
structure ProcessConfig where
  log : LogSection
deriving DecidableEq, Repr

/-- The command-line override dictionary built by `configure_bigchaindb`:
`{'log': {'level_console': l, 'level_logfile': l}, 'server': {'loglevel': l}}`. -/
structure CmdlineOverride where
  level_console : String
  level_logfile : String
  server_loglevel : String
deriving DecidableEq, Repr

/-- One recorded call to the external configuration loader. -/
structure AutoconfigureCall where
  filename : Option String
  config : Option CmdlineOverride
  force : Bool
deriving DecidableEq, Repr

/-- The logging configuration dictionary, restricted to the paths mutated
by `start_logging_process` (handlers `console`, `file`, `errors`;
formatters `console`, `file`). -/
structure LoggingConfig where
  handlers_console_level : String
  handlers_file_filename : String
  handlers_file_level : String
  handlers_errors_filename : String
  formatters_console_datefmt : String
  formatters_console_format : String
  formatters_file_datefmt : String
  formatters_file_format : String
deriving DecidableEq, Repr

/-- Observable effects of the pipeline, in the order they happen. -/
inductive Ev where
  | configInstalled
  | loggingInstalled
  | printedHelp
deriving DecidableEq, Repr

/-- The process-wide mutable state threaded through the pipeline:
`bigchaindb.config`, the installed logging configuration (if any), the
calls made to the external configuration loader, and the event trace. -/
structure PState where
  config : ProcessConfig
  loggingState : Option LoggingConfig
  autoconfigureCalls : List AutoconfigureCall
  trace : List Ev
deriving DecidableEq, Repr

/-- A command handler: takes the parsed arguments, acts on the process
state, and returns a value. -/
abbrev Handler : Type := Args → PState → PState × PyVal

/-- The external configuration-merging collaborator: from a filename and a
command-line override it produces the merged configuration
(defaults, then file, then override — later sources win). -/
abbrev MergeFn : Type := Option String → Option CmdlineOverride → ProcessConfig

/-- Modelled from the spec: `bigchaindb.config_utils.autoconfigure` is not
under `src/`.  Per the spec it force-merges defaults, the file at
`filename` and the command-line override `config` into the process-wide
configuration, discarding any previously cached configuration; the merge
itself is delegated to the abstract `merge` collaborator.  The call and the
installation are recorded in the state. -/
def autoconfigure (merge : MergeFn) (filename : Option String)
    (config : Option CmdlineOverride) (force : Bool) (s : PState) : PState :=
  { s with
    config := merge filename config
    autoconfigureCalls :=
      s.autoconfigureCalls ++ [{ filename := filename, config := config, force := force }]
    trace := s.trace ++ [Ev.configInstalled] }

/-- The override dictionary computed at utils.py lines 32-43: built only
when the `log_level` attribute exists and is not `None`; the
`try/except AttributeError: pass` leaves it `None` when the attribute is
missing. -/
def configFromCmdline (args : Args) : Option CmdlineOverride :=
  match args.log_level with
  | some (some l) =>
      some { level_console := l, level_logfile := l, server_loglevel := l }
  | _ => Option.none

/-- Embedding of the decorator `configure_bigchaindb` (utils.py lines
18-48): its wrapper builds the command-line override, calls
`autoconfigure(filename=args.config, config=..., force=True)`, then runs
the wrapped command, discarding its return value (the wrapper returns
`None`). -/
def configure_bigchaindb (merge : MergeFn) (command : Handler) : Handler :=
  fun args s =>
    let config_from_cmdline := configFromCmdline args
    let s1 := autoconfigure merge args.config config_from_cmdline true s
    let s2 := (command args s1).1
    (s2, PyVal.none)

/-- Modelled from the spec: `DEFAULT_LOGGING_CONFIG` lives in
`bigchaindb.log`, which is not under `src/`.  Only the fields this
pipeline mutates are modelled; their default values are irrelevant to the
claims since every one of them is overwritten. -/
def DEFAULT_LOGGING_CONFIG : LoggingConfig :=
  { handlers_console_level := "INFO"
    handlers_file_filename := "bigchaindb.log"
    handlers_file_level := "INFO"
    handlers_errors_filename := "bigchaindb-errors.log"
    formatters_console_datefmt := "%Y-%m-%d %H:%M:%S"
    formatters_console_format := "[%(asctime)s] [%(levelname)s] (%(name)s) %(message)s"
    formatters_file_datefmt := "%Y-%m-%d %H:%M:%S"
    formatters_file_format := "[%(asctime)s] [%(levelname)s] (%(name)s) %(message)s" }

/-- Modelled from the spec: `logging.config.dictConfig` (standard library)
installs the given configuration as the process-wide logging state. -/
def set_logging_config (cfg : LoggingConfig) (s : PState) : PState :=
  { s with loggingState := some cfg, trace := s.trace ++ [Ev.loggingInstalled] }

/-- The field updates performed on the default logging configuration at
utils.py lines 74-89: file locations, levels (upper-cased), date formats,
and string formats (both taken from `fmt_console`). -/
def start_logging_update (logging_configs : LoggingConfig)
    (new_logging_configs : LogSection) : LoggingConfig :=
  { logging_configs with
    handlers_file_filename := new_logging_configs.file
    handlers_errors_filename := new_logging_configs.error_file
    handlers_console_level := strUpper new_logging_configs.level_console
    handlers_file_level := strUpper new_logging_configs.level_logfile
    formatters_console_datefmt := new_logging_configs.datefmt_console
    formatters_file_datefmt := new_logging_configs.datefmt_logfile
    formatters_console_format := new_logging_configs.fmt_console
    formatters_file_format := new_logging_configs.fmt_console }

/-- Embedding of the decorator `start_logging_process` (utils.py lines
51-93): its wrapper reads `bigchaindb.config['log']`, overwrites the
default logging configuration, installs it via `dictConfig`, then runs the
wrapped command, discarding its return value (the wrapper returns
`None`). -/
def start_logging_process (command : Handler) : Handler :=
  fun args s =>
    let logging_configs := DEFAULT_LOGGING_CONFIG
    let new_logging_configs := s.config.log
    let logging_configs := start_logging_update logging_configs new_logging_configs
    let s1 := set_logging_config logging_configs s
    let s2 := (command args s1).1
    (s2, PyVal.none)

/-- An argument parser, abstracted to the function from the raw argument
list to the parsed argument namespace. -/
abbrev Parser : Type := List String → Args

/-- The lookup scope passed to `start`: a name-to-value mapping. -/
abbrev Scope : Type := List (String × Handler)

/-- Python truthiness of `args.command`: falsy when `None` or empty. -/
def truthyCommand : Option String → Bool
  | Option.none => false
  | some c => !(c == "")

/-- The message of the `NotImplementedError` raised by `start`:
`'Command ... not yet implemented'.format(args.command)`. -/
def notImplementedMessage (cmd : String) : String :=
  "Command `" ++ cmd ++ "` not yet implemented"

/-- How one invocation of `start` terminates: the handler's return value,
a clean `SystemExit()` (exit status 0), or an uncaught
`NotImplementedError` (a failure exit). -/
inductive Outcome where
  | ok (v : PyVal)
  | cleanExit
  | notImplementedError (msg : String)
deriving DecidableEq, Repr

/-- Process exit status of an outcome: `SystemExit()` with no code exits
with status 0; an uncaught exception is a nonzero failure exit. -/
def Outcome.exitStatus : Outcome → Nat
  | Outcome.ok _ => 0
  | Outcome.cleanExit => 0
  | Outcome.notImplementedError _ => 1

/-- Whether an outcome is an error (an uncaught exception). -/
def Outcome.isError : Outcome → Bool
  | Outcome.ok _ => false
  | Outcome.cleanExit => false
  | Outcome.notImplementedError _ => true

/-- The `multiprocess` normalization of `start` (utils.py lines 173-178):
`getattr(args, 'multiprocess', False)`, then `False` becomes `1`, `None`
becomes `mp.cpu_count()`, anything else is left unchanged. -/
def normalizeMultiprocess (cpuCount : Nat) (m : Option MPVal) : MPVal :=
  let m := m.getD MPVal.pyFalse
  match m with
  | MPVal.pyFalse => MPVal.pyInt 1
  | MPVal.pyNone => MPVal.pyInt (Int.ofNat cpuCount)
  | MPVal.pyInt n => MPVal.pyInt n

/-- The argument namespace as it reaches the resolved handler: identical to
the parsed one except for the normalized `multiprocess` field. -/
def dispatchArgs (cpuCount : Nat) (args : Args) : Args :=
  { args with multiprocess := some (normalizeMultiprocess cpuCount args.multiprocess) }

/-- Embedding of `start(parser, argv, scope)` (utils.py lines 142-180).
`cpuCount` stands for `multiprocessing.cpu_count()` on the host.  A falsy
`command` prints help and exits cleanly; a missing `run_*` entry raises
`NotImplementedError`; otherwise the handler is called with the normalized
arguments and its result is returned. -/
def start (cpuCount : Nat) (parser : Parser) (argv : List String)
    (scope : Scope) (s : PState) : PState × Outcome :=
  let args := parser argv
  match args.command with
  | Option.none =>
      ({ s with trace := s.trace ++ [Ev.printedHelp] }, Outcome.cleanExit)
  | some cmd =>
      if cmd == "" then
        ({ s with trace := s.trace ++ [Ev.printedHelp] }, Outcome.cleanExit)
      else
        match List.lookup ("run_" ++ replaceDashes cmd) scope with
        | Option.none =>
            (s, Outcome.notImplementedError (notImplementedMessage cmd))
        | some func =>
            let args1 := dispatchArgs cpuCount args
            let r := func args1 s
            (r.1, Outcome.ok r.2)

/-! Concrete values used by the witness theorems. -/

/-- A concrete `log` section. -/
def logSection0 : LogSection :=
  { file := "bigchaindb.log"
    error_file := "bigchaindb-errors.log"
    level_console := "debug"
    level_logfile := "info"
    datefmt_console := "%Y-%m-%d %H:%M:%S"
    datefmt_logfile := "%Y-%m-%d"
    fmt_console := "%(message)s"
    fmt_logfile := "file %(message)s" }

/-- A concrete process configuration. -/
def processConfig0 : ProcessConfig := { log := logSection0 }

/-- A concrete initial process state. -/
def pstate0 : PState :=
  { config := processConfig0
    loggingState := Option.none
    autoconfigureCalls := []
    trace := [] }

/-- A concrete external merge collaborator. -/
def merge0 : MergeFn := fun _ _ => processConfig0

/-- A concrete handler that does nothing and returns `None`. -/
def handler0 : Handler := fun _ s => (s, PyVal.none)

/-- A concrete argument namespace with no command. -/
def argsNoCmd : Args :=
  { command := Option.none
    config := Option.none
    log_level := Option.none
    yes := false
    multiprocess := Option.none }

/-- A concrete argument namespace with command `foo-bar`. -/
def argsFooBar : Args := { argsNoCmd with command := some "foo-bar" }

/-- A concrete argument namespace with a `log_level` value. -/
def argsLogLevel : Args :=
  { argsNoCmd with command := some "start", log_level := some (some "DEBUG") }

/-! Theorems settling the claims. -/

/-- Helper: on a nonempty string, `_convert` with the builtin `bool`
converter is exactly `convert_bool`. -/
theorem convert_with_boolType (s : String) (hne : s ≠ "") :
    _convert (some s) PyVal.none (some Converter.boolType) = convert_bool s := by
  unfold _convert
  simp [hne, applyConverter]

/-- C3: for every non-empty string `s`, boolean conversion yields `true`
when the lower-cased `s` is one of true/t/yes/y, `false` when it is one of
false/f/no/n, and otherwise fails with a `ValueError` whose message carries
the original string. -/
theorem convert_bool_cases (s : String) (hne : s ≠ "") :
    (strLower s ∈ ["true", "t", "yes", "y"] →
      _convert (some s) PyVal.none (some Converter.boolType)
        = Except.ok (PyVal.bool true))
    ∧ (strLower s ∈ ["false", "f", "no", "n"] →
      _convert (some s) PyVal.none (some Converter.boolType)
        = Except.ok (PyVal.bool false))
    ∧ (strLower s ∉ ["true", "t", "yes", "y"] →
        strLower s ∉ ["false", "f", "no", "n"] →
      _convert (some s) PyVal.none (some Converter.boolType)
        = Except.error (PyError.valueError (s ++ " cannot be converted to bool"))
      ∧ ∃ pre post,
          s ++ " cannot be converted to bool" = pre ++ s ++ post) := by
  rw [convert_with_boolType s hne]
  unfold convert_bool
  refine ⟨fun h1 => ?_, fun h2 => ?_, fun h1 h2 => ⟨?_, "", " cannot be converted to bool", ?_⟩⟩
  · rw [if_pos h1]
  · have hdisj : strLower s ∉ ["true", "t", "yes", "y"] := by
      intro h1
      simp only [List.mem_cons, List.not_mem_nil, or_false] at h1 h2
      rcases h1 with h1 | h1 | h1 | h1 <;> rcases h2 with h2 | h2 | h2 | h2 <;>
        rw [h1] at h2 <;> exact absurd h2 (by decide)
    rw [if_neg hdisj, if_pos h2]
  · rw [if_neg h1, if_neg h2]
  · simp

/-- Witness for C3 at `s = "Y"`. -/
theorem convert_bool_cases_witness :
    _convert (some "Y") PyVal.none (some Converter.boolType)
      = Except.ok (PyVal.bool true) :=
  (convert_bool_cases "Y" (by decide)).1 (by decide)

/-- C7: converting the empty string (and, generally, an absent value)
returns `default` unchanged, for every default and every converter,
supplied or omitted — in particular the converter is never applied. -/
theorem convert_empty_returns_default (default : PyVal) (convert : Option Converter) :
    _convert (some "") default convert = Except.ok default
    ∧ _convert Option.none default convert = Except.ok default := by
  constructor <;> rfl

/-- C4: `dispatchArgs` (the normalization `start` performs on the parsed
arguments before invoking the handler) sets a missing `multiprocess` field
to `1`, sets the auto sentinel (`None`) to the host's processing-unit
count (positive), and leaves an explicit integer unchanged. -/
theorem multiprocess_normalization (cpuCount : Nat) (hpos : 0 < cpuCount) (args : Args) :
    (args.multiprocess = Option.none →
      dispatchArgs cpuCount args
        = { args with multiprocess := some (MPVal.pyInt 1) })
    ∧ (args.multiprocess = some MPVal.pyNone →
      dispatchArgs cpuCount args
        = { args with multiprocess := some (MPVal.pyInt (Int.ofNat cpuCount)) }
      ∧ 0 < Int.ofNat cpuCount)
    ∧ (∀ n : Int, args.multiprocess = some (MPVal.pyInt n) →
      dispatchArgs cpuCount args = args) := by
  refine ⟨fun h => ?_, fun h => ⟨?_, ?_⟩, fun n h => ?_⟩
  · simp [dispatchArgs, normalizeMultiprocess, h]
  · simp [dispatchArgs, normalizeMultiprocess, h]
  · exact Int.ofNat_pos.mpr hpos
  · cases args
    simp_all [dispatchArgs, normalizeMultiprocess]

/-- Witness for C4 at `cpuCount = 4` and arguments with a missing
`multiprocess` field. -/
theorem multiprocess_normalization_witness :
    dispatchArgs 4 argsNoCmd = { argsNoCmd with multiprocess := some (MPVal.pyInt 1) } :=
  (multiprocess_normalization 4 (by decide) argsNoCmd).1 rfl

/-- Helper: when the parsed command is a nonempty string and the scope has
a matching `run_*` entry, `start` is exactly one invocation of that entry
on the normalized arguments, with its result returned. -/
theorem start_found (cpuCount : Nat) (parser : Parser) (argv : List String)
    (scope : Scope) (s : PState) (cmd : String) (func : Handler)
    (hc : (parser argv).command = some cmd) (hne : cmd ≠ "")
    (hfind : List.lookup ("run_" ++ replaceDashes cmd) scope = some func) :
    start cpuCount parser argv scope s
      = ((func (dispatchArgs cpuCount (parser argv)) s).1,
         Outcome.ok (func (dispatchArgs cpuCount (parser argv)) s).2) := by
  simp [start, hc, hne, hfind]

/-- C2: when the scope has no entry under
`run_ + command-with-dashes-replaced-by-underscores`, dispatch leaves the
state untouched (no handler runs) and produces a `NotImplementedError`
whose message contains the unrecognized command name. -/
theorem start_unknown_command (cpuCount : Nat) (parser : Parser)
    (argv : List String) (scope : Scope) (s : PState) (cmd : String)
    (hc : (parser argv).command = some cmd) (hne : cmd ≠ "")
    (hmiss : List.lookup ("run_" ++ replaceDashes cmd) scope = Option.none) :
    start cpuCount parser argv scope s
      = (s, Outcome.notImplementedError (notImplementedMessage cmd))
    ∧ (∃ pre post, notImplementedMessage cmd = pre ++ cmd ++ post)
    ∧ Outcome.isError (Outcome.notImplementedError (notImplementedMessage cmd)) = true := by
  refine ⟨?_, ⟨"Command `", "` not yet implemented", rfl⟩, rfl⟩
  simp [start, hc, hne, hmiss]

/-- Witness for C2: command `foo-bar` against an empty scope. -/
theorem start_unknown_command_witness :
    start 4 (fun _ => argsFooBar) ["foo-bar"] [] pstate0
      = (pstate0, Outcome.notImplementedError (notImplementedMessage "foo-bar"))
    ∧ (∃ pre post, notImplementedMessage "foo-bar" = pre ++ "foo-bar" ++ post)
    ∧ Outcome.isError (Outcome.notImplementedError (notImplementedMessage "foo-bar")) = true :=
  start_unknown_command 4 (fun _ => argsFooBar) ["foo-bar"] [] pstate0 "foo-bar"
    rfl (by decide) rfl

/-- C6: when the parsed `command` is falsy (absent or empty), dispatch
prints the help text and terminates with the clean `SystemExit()` outcome:
exit status 0, not an error, never a `NotImplementedError`, and no handler
runs. -/
theorem start_no_command (cpuCount : Nat) (parser : Parser)
    (argv : List String) (scope : Scope) (s : PState)
    (h : truthyCommand (parser argv).command = false) :
    start cpuCount parser argv scope s
      = ({ s with trace := s.trace ++ [Ev.printedHelp] }, Outcome.cleanExit)
    ∧ Outcome.exitStatus Outcome.cleanExit = 0
    ∧ Outcome.isError Outcome.cleanExit = false
    ∧ (∀ msg, Outcome.cleanExit ≠ Outcome.notImplementedError msg) := by
  refine ⟨?_, rfl, rfl, fun msg hx => Outcome.noConfusion hx⟩
  cases hc : (parser argv).command with
  | none => simp [start, hc]
  | some c =>
      rw [hc] at h
      have hcempty : c = "" := by simpa [truthyCommand] using h
      subst hcempty
      simp [start, hc]

/-- Witness for C6: an argument list parsed to no command at all. -/
theorem start_no_command_witness :
    start 4 (fun _ => argsNoCmd) [] [] pstate0
      = ({ pstate0 with trace := pstate0.trace ++ [Ev.printedHelp] }, Outcome.cleanExit)
    ∧ Outcome.exitStatus Outcome.cleanExit = 0
    ∧ Outcome.isError Outcome.cleanExit = false
    ∧ (∀ msg, Outcome.cleanExit ≠ Outcome.notImplementedError msg) :=
  start_no_command 4 (fun _ => argsNoCmd) [] [] pstate0 rfl

/-- C8: when the scope has an entry under
`run_ + command-with-dashes-replaced-by-underscores`, dispatch invokes that
function exactly once, with the (normalized) parsed arguments as its sole
argument, and returns that function's result to the caller. -/
theorem start_invokes_handler (cpuCount : Nat) (parser : Parser)
    (argv : List String) (scope : Scope) (s : PState) (cmd : String) (func : Handler)
    (hc : (parser argv).command = some cmd) (hne : cmd ≠ "")
    (hfind : List.lookup ("run_" ++ replaceDashes cmd) scope = some func) :
    start cpuCount parser argv scope s
      = ((func (dispatchArgs cpuCount (parser argv)) s).1,
         Outcome.ok (func (dispatchArgs cpuCount (parser argv)) s).2) :=
  start_found cpuCount parser argv scope s cmd func hc hne hfind

/-- Witness for C8: command `foo-bar` resolved to the `run_foo_bar` entry. -/
theorem start_invokes_handler_witness :
    start 4 (fun _ => argsFooBar) ["foo-bar"] [("run_foo_bar", handler0)] pstate0
      = ((handler0 (dispatchArgs 4 argsFooBar) pstate0).1,
         Outcome.ok (handler0 (dispatchArgs 4 argsFooBar) pstate0).2) :=
  start_invokes_handler 4 (fun _ => argsFooBar) ["foo-bar"]
    [("run_foo_bar", handler0)] pstate0 "foo-bar" handler0 rfl (by decide) rfl

/-- C1: for a handler wrapped first by `start_logging_process` (inner) and
then by `configure_bigchaindb` (outer), the invocation first fully installs
the merged process configuration, then derives the logging configuration
from that installed configuration and installs it, and only then runs the
body on the resulting state (the trace shows the strict order). -/
theorem bootstrap_order (merge : MergeFn) (command : Handler) (args : Args) (s : PState) :
    ∃ s2 : PState,
      configure_bigchaindb merge (start_logging_process command) args s
        = ((command args s2).1, PyVal.none)
      ∧ s2.config = merge args.config (configFromCmdline args)
      ∧ s2.loggingState
          = some (start_logging_update DEFAULT_LOGGING_CONFIG
              (merge args.config (configFromCmdline args)).log)
      ∧ s2.trace = s.trace ++ [Ev.configInstalled, Ev.loggingInstalled] := by
  refine ⟨set_logging_config
      (start_logging_update DEFAULT_LOGGING_CONFIG
        (merge args.config (configFromCmdline args)).log)
      (autoconfigure merge args.config (configFromCmdline args) true s),
    rfl, rfl, rfl, ?_⟩
  simp [set_logging_config, autoconfigure]

/-- C5: the logging configuration installed by `start_logging_process`
takes its file and errors handlers' filenames from the log section's
`file` and `error_file`, its console and file handler levels from
`level_console` and `level_logfile` upper-cased, its date formats from
`datefmt_console` and `datefmt_logfile`, and the message format of both
formatters from the single `fmt_console` field. -/
theorem logging_fields (command : Handler) (args : Args) (s : PState) :
    ∃ lc s1,
      start_logging_process command args s = ((command args s1).1, PyVal.none)
      ∧ s1.loggingState = some lc
      ∧ lc.handlers_file_filename = s.config.log.file
      ∧ lc.handlers_errors_filename = s.config.log.error_file
      ∧ lc.handlers_console_level = strUpper s.config.log.level_console
      ∧ lc.handlers_file_level = strUpper s.config.log.level_logfile
      ∧ lc.formatters_console_datefmt = s.config.log.datefmt_console
      ∧ lc.formatters_file_datefmt = s.config.log.datefmt_logfile
      ∧ lc.formatters_console_format = s.config.log.fmt_console
      ∧ lc.formatters_file_format = s.config.log.fmt_console :=
  ⟨start_logging_update DEFAULT_LOGGING_CONFIG s.config.log,
    set_logging_config (start_logging_update DEFAULT_LOGGING_CONFIG s.config.log) s,
    rfl, rfl, rfl, rfl, rfl, rfl, rfl, rfl, rfl, rfl⟩

/-- C9: `configure_bigchaindb` passes the external loader an override
setting the console level, the file level and the server loglevel all to
`args.log_level` when that attribute exists and is non-absent, with
`force = true`; when the attribute is `None` or missing entirely, the
loader receives no override (`None`). -/
theorem cmdline_override (merge : MergeFn) (command : Handler) (args : Args) (s : PState) :
    (∀ l, args.log_level = some (some l) →
      ∃ s1, configure_bigchaindb merge command args s = ((command args s1).1, PyVal.none)
        ∧ s1.autoconfigureCalls = s.autoconfigureCalls ++
            [{ filename := args.config
               config := some { level_console := l, level_logfile := l, server_loglevel := l }
               force := true }])
    ∧ ((args.log_level = Option.none ∨ args.log_level = some Option.none) →
      ∃ s1, configure_bigchaindb merge command args s = ((command args s1).1, PyVal.none)
        ∧ s1.autoconfigureCalls = s.autoconfigureCalls ++
            [{ filename := args.config, config := Option.none, force := true }]) := by
  constructor
  · intro l hl
    refine ⟨autoconfigure merge args.config (configFromCmdline args) true s, rfl, ?_⟩
    simp [autoconfigure, configFromCmdline, hl]
  · intro hl
    refine ⟨autoconfigure merge args.config (configFromCmdline args) true s, rfl, ?_⟩
    rcases hl with hl | hl <;> simp [autoconfigure, configFromCmdline, hl]

/-- Witness for C9: arguments carrying `log_level = "DEBUG"`. -/
theorem cmdline_override_witness :
    ∃ s1, configure_bigchaindb merge0 handler0 argsLogLevel pstate0
        = ((handler0 argsLogLevel s1).1, PyVal.none)
      ∧ s1.autoconfigureCalls = pstate0.autoconfigureCalls ++
          [{ filename := argsLogLevel.config
             config := some { level_console := "DEBUG", level_logfile := "DEBUG",
                              server_loglevel := "DEBUG" }
             force := true }] :=
  (cmdline_override merge0 handler0 argsLogLevel pstate0).1 "DEBUG" rfl

/-- C10: the wrappers produced by `configure_bigchaindb` and by
`start_logging_process` discard the wrapped command's return value and
return `None`; consequently a handler wrapped by the bootstrappers yields
`None` through dispatch, whatever the body returns. -/
theorem wrappers_return_none (merge : MergeFn) (command : Handler) (args : Args) (s : PState)
    (cpuCount : Nat) (parser : Parser) (argv : List String) (scope : Scope) (cmd : String)
    (hc : (parser argv).command = some cmd) (hne : cmd ≠ "")
    (hfind : List.lookup ("run_" ++ replaceDashes cmd) scope
      = some (configure_bigchaindb merge (start_logging_process command))) :
    (configure_bigchaindb merge command args s).2 = PyVal.none
    ∧ (start_logging_process command args s).2 = PyVal.none
    ∧ (start cpuCount parser argv scope s).2 = Outcome.ok PyVal.none := by
  refine ⟨rfl, rfl, ?_⟩
  rw [start_found cpuCount parser argv scope s cmd _ hc hne hfind]
  exact rfl

/-- Witness for C10: a fully wrapped trivial handler dispatched as
`foo-bar` yields `None`. -/
theorem wrappers_return_none_witness :
    (configure_bigchaindb merge0 handler0 argsFooBar pstate0).2 = PyVal.none
    ∧ (start_logging_process handler0 argsFooBar pstate0).2 = PyVal.none
    ∧ (start 4 (fun _ => argsFooBar) ["foo-bar"]
        [("run_foo_bar", configure_bigchaindb merge0 (start_logging_process handler0))]
        pstate0).2
      = Outcome.ok PyVal.none :=
  wrappers_return_none merge0 handler0 argsFooBar pstate0 4 (fun _ => argsFooBar)
    ["foo-bar"]
    [("run_foo_bar", configure_bigchaindb merge0 (start_logging_process handler0))]
    "foo-bar" rfl (by decide) rfl

end BigchainDB
